import Mathlib

/-!
# Verification of `plc_connect.py` (socket_plc)

A shallow embedding of the PLC socket client `plc_connect.py` and proofs
about its frame codec, exchange engine and transport wrappers.

Python strings are modelled as `List Char`.  The network is modelled by an
explicit oracle (`Env`): the outcome of the one `send` call and of the at
most two `recv` calls a `read`/`write` performs.  Python's heterogeneous
return values (ints, strings, `None`, exception objects, nested lists) are
modelled by the inductive type `PyVal`.
-/

set_option autoImplicit false

namespace PLC

/-- Python strings, modelled as their list of characters. -/
abbrev Str := List Char

/-- Python slicing `s[a:b]` for non-negative bounds: the characters with
indices `a ≤ k < b`, clipped to the string (out-of-range slices are empty,
never an error). -/
def pySlice (s : Str) (a b : Nat) : Str := (s.drop a).take (b - a)

/-- Python `s.zfill(w)` on a digit string: left-pad with `'0'` to width `w`
(a string already at least `w` long is returned unchanged).  The inputs in
this development are digit strings, so Python's sign handling never fires
and is not modelled. -/
def zfill (s : Str) (w : Nat) : Str := List.replicate (w - s.length) '0' ++ s

/-- Python `s.upper()`.  All frame characters are ASCII, where Python's
`upper` agrees with `Char.toUpper`. -/
def upper (s : Str) : Str := s.map Char.toUpper

/-- Python `str(n)` for a natural number `n`: its decimal digits. -/
def decDigits (n : Nat) : Str := Nat.toDigits 10 n

/-- Python `format(n, 'x')` for a natural number `n`: lowercase
hexadecimal digits, no padding, `"0"` for zero. -/
def hexDigits (n : Nat) : Str := Nat.toDigits 16 n

/-- Value of one hexadecimal digit character (either case), `none` on a
non-digit. -/
def hexVal (c : Char) : Option Nat :=
  if '0' ≤ c ∧ c ≤ '9' then some (c.toNat - '0'.toNat)
  else if 'a' ≤ c ∧ c ≤ 'f' then some (c.toNat - 'a'.toNat + 10)
  else if 'A' ≤ c ∧ c ≤ 'F' then some (c.toNat - 'A'.toNat + 10)
  else none

/-- Model of Python `int(s, 16)` restricted to plain strings of hex digits:
`some` of the value on a non-empty all-hex-digit string, `none` (the
`ValueError` case) otherwise.  (Python also accepts surrounding whitespace,
a sign and a `0x` marker; no input in this development contains those, so
they are modelled as parse failures.) -/
def pyIntHex (s : Str) : Option Nat :=
  if s = [] then none
  else
    s.foldl
      (fun acc c =>
        match acc, hexVal c with
        | some a, some d => some (16 * a + d)
        | _, _ => none)
      (some 0)

/-- A Python runtime value, as far as the return values of
`data_transfer` need: integers, strings, `None`, a caught exception
object, and (nested) lists. -/
inductive PyVal where
  | int : Nat → PyVal
  | str : Str → PyVal
  | none : PyVal
  | exc : PyVal
  | list : List PyVal → PyVal

/-- `data_transfer.send` (lines 58–79).  The socket's success or failure is
the oracle `fails`; the bare `except` turns any exception into return
code `1`, and the `finally: return` guarantees a return code is always
produced.  The command string does not influence the outcome. -/
def send (fails : Bool) (cmd : Str) : Nat :=
  if fails then 1 else 0

/-- `data_transfer.recv` (lines 81–100).  The oracle is `none` when
`sock.recv`/decode raises (caught by the bare `except`) and `some d` when
it returns the decoded text `d`.  On failure the initial value
`data = []` (an empty Python list) is returned unchanged together with
return code `1`. -/
def recv (o : Option Str) : Nat × PyVal :=
  match o with
  | some d => (0, PyVal.str d)
  | Option.none => (1, PyVal.list [])

/-- State of a connection: whether its socket has been closed. -/
structure ConnState where
  sockClosed : Bool

/-- The underlying `socket.socket.close()` of CPython: closing an
already-closed socket is a no-op and raises nothing (the C layer checks
for the invalidated descriptor and returns immediately); closing an open
socket marks it closed, and `err` says whether the OS-level close reports
an error (raising `socket.error`).  Returns the new state and whether
`socket.error` was raised. -/
def sockClose (st : ConnState) (err : Bool) : ConnState × Bool :=
  if st.sockClosed then (st, false)
  else (⟨true⟩, err)

/-- `data_transfer.close` (lines 39–56): `return_cd = 0`; try
`sock.close()`; on `socket.error` set `return_cd = 1`; `finally` return
`return_cd`.  Returns the new connection state and the return code. -/
def close (st : ConnState) (err : Bool) : ConnState × Nat :=
  let r := sockClose st err
  (r.fst, if r.snd then 1 else 0)

/-- A fresh connection whose socket was successfully opened. -/
def initConn : ConnState := ⟨false⟩

/-- The network oracle for one `read`/`write` call: whether the single
`send` fails, and the outcomes of the first and (if reached) second
`recv`. -/
structure Env where
  sendFails : Bool
  recv1 : Option Str
  recv2 : Option Str

/-- The receive-with-retry loop shared by `read` (lines 129–137) and
`write` (lines 182–190):

```
rtn_cd, recv_data = self.recv()
retry_cntr = 0
while rtn_cd != 0:
    time.sleep(0.01)
    retry_cntr += 1
    rtn_cd, recv_data = self.recv()
    if retry_cntr > 0:
        raise Exception
```

If the first `recv` succeeds the loop body never runs and its data is
used.  If the first `recv` fails the body runs exactly once: it performs
the second `recv` (oracle `o2`), but then the guard `retry_cntr > 0` —
checked after the retry, with `retry_cntr = 1` — holds unconditionally,
so the body raises regardless of the second outcome and the second
receive's data is discarded.  Hence the result depends only on `o1`. -/
def exchangeRecv (o1 o2 : Option Str) : Except Unit Str :=
  match o1 with
  | some d => Except.ok d
  | Option.none => Except.error ()

/-- Request-frame construction of `data_transfer.read` (lines 119–122):
`number = str(length).zfill(4)` (decimal!), `cmd = '001004010000' +
device + number`, `cmd_length = format(len(cmd), 'x').zfill(4)`,
`cmd = ('500000FF03FF00' + cmd_length + cmd).upper()`. -/
def readFrame (device : Str) (length : Nat) : Str :=
  let number := zfill (decDigits length) 4
  let cmd := "001004010000".data ++ device ++ number
  let cmdLength := zfill (hexDigits cmd.length) 4
  upper ("500000FF03FF00".data ++ cmdLength ++ cmd)

/-- Request-frame construction of `data_transfer.write` (lines 172–176):
as for `read` but with opcode `'001014010000'` and the value appended as
`format(data, 'x').zfill(4)`. -/
def writeFrame (device : Str) (data : Nat) (length : Nat) : Str :=
  let number := zfill (decDigits length) 4
  let dataHex := zfill (hexDigits data) 4
  let cmd := "001014010000".data ++ device ++ number ++ dataHex
  let cmdLength := zfill (hexDigits cmd.length) 4
  upper ("500000FF03FF00".data ++ cmdLength ++ cmd)

/-- The `i`-th payload slot of a response: `recv_data[4*i+22 : 4*i+26]`
(line 142–143). -/
def slotOf (r : Str) (i : Nat) : Str := pySlice r (4 * i + 22) (4 * i + 26)

/-- One iteration of the payload loop (lines 143–146): a non-empty slot is
parsed with `int(·, 16)` (whose `ValueError` aborts the whole call, the
`error` case); an empty slot appends the empty string `''`. -/
def decodeSlot (r : Str) (i : Nat) : Except Unit PyVal :=
  if slotOf r i = [] then Except.ok (PyVal.str [])
  else
    match pyIntHex (slotOf r i) with
    | some n => Except.ok (PyVal.int n)
    | Option.none => Except.error ()

/-- The payload loop `for i in range(length)` (lines 141–146), processing
slots `i, i+1, …, i+n-1`: collects the decoded elements in order, or
propagates the first parse failure. -/
def decodeFrom (r : Str) (i : Nat) : Nat → Except Unit (List PyVal)
  | 0 => Except.ok []
  | Nat.succ n =>
    match decodeSlot r i with
    | Except.error e => Except.error e
    | Except.ok v =>
      match decodeFrom r (i + 1) n with
      | Except.error e => Except.error e
      | Except.ok vs => Except.ok (v :: vs)

/-- Status check and payload decode of `read` (lines 138–147): status
≠ `"0000"` yields `[[None]]`; otherwise the payload loop runs, a parse
failure landing in the outer `except` (`[[e]]`, line 150). -/
def decodeResp (recvData : Str) (length : Nat) : List PyVal :=
  if pySlice recvData 18 22 ≠ "0000".data then [PyVal.list [PyVal.none]]
  else
    match decodeFrom recvData 0 length with
    | Except.ok data => data
    | Except.error _ => [PyVal.list [PyVal.exc]]

/-- `data_transfer.read` (lines 102–150): build the frame, send it (a
failing send raises, caught by the outer `except` as `[[e]]`), receive
with the one-retry loop (failure likewise `[[e]]`), then check status and
decode the payload. -/
def read (env : Env) (device : Str) (length : Nat) : List PyVal :=
  let cmd := readFrame device length
  if send env.sendFails cmd ≠ 0 then [PyVal.list [PyVal.exc]]
  else
    match exchangeRecv env.recv1 env.recv2 with
    | Except.error _ => [PyVal.list [PyVal.exc]]
    | Except.ok recvData => decodeResp recvData length

/-- `data_transfer.write` (lines 152–197): build the frame, send, receive
with the one-retry loop; status ≠ `"0000"` returns `1`, status `"0000"`
returns `0`, and a raised exception is returned as the exception object
itself (line 197). -/
def write (env : Env) (device : Str) (data : Nat) (length : Nat) : PyVal :=
  let cmd := writeFrame device data length
  if send env.sendFails cmd ≠ 0 then PyVal.exc
  else
    match exchangeRecv env.recv1 env.recv2 with
    | Except.error _ => PyVal.exc
    | Except.ok recvData =>
      if pySlice recvData 18 22 ≠ "0000".data then PyVal.int 1
      else PyVal.int 0

/-- The value the payload loop appends for slot `i` when it does not
raise: the empty-string marker for an empty slot, the parsed integer
otherwise (the `str []` default in the unparsable branch is never used
under the hypotheses of the lemmas below). -/
def decodeSlotD (r : Str) (i : Nat) : PyVal :=
  if slotOf r i = [] then PyVal.str []
  else
    match pyIntHex (slotOf r i) with
    | some n => PyVal.int n
    | Option.none => PyVal.str []

/-- The index list `i, i+1, …, i+n-1` (the slots the payload loop visits). -/
def idxList (i n : Nat) : List Nat :=
  match n with
  | 0 => []
  | Nat.succ m => i :: idxList (i + 1) m

/-- A successful `read` result is flat data: every element is an integer
or the empty-string marker. -/
def flatData (l : List PyVal) : Prop :=
  ∀ v ∈ l, (∃ n, v = PyVal.int n) ∨ v = PyVal.str []

end PLC

namespace PLC

/-! ## Helper lemmas -/

lemma upper_append (a b : Str) : upper (a ++ b) = upper a ++ upper b :=
  List.map_append _ a b

lemma slotOf_empty_iff (r : Str) (i : Nat) : slotOf r i = [] ↔ r.length ≤ 4 * i + 22 := by
  unfold slotOf pySlice
  constructor
  · intro h
    rcases List.take_eq_nil_iff.mp h with h4 | hd
    · omega
    · exact List.drop_eq_nil_iff.mp hd
  · intro h
    rw [List.drop_eq_nil_iff.mpr h, List.take_nil]

lemma slotOf_empty_mono (r : Str) {i j : Nat} (hij : i ≤ j) (h : slotOf r i = []) :
    slotOf r j = [] := by
  rw [slotOf_empty_iff] at h ⊢
  omega

lemma decodeSlot_eq_ok (r : Str) (i : Nat)
    (h : (pyIntHex (slotOf r i)).isSome ∨ slotOf r i = []) :
    decodeSlot r i = Except.ok (decodeSlotD r i) := by
  unfold decodeSlot decodeSlotD
  by_cases hs : slotOf r i = []
  · simp [hs]
  · rcases h with h | h
    · cases hp : pyIntHex (slotOf r i) with
      | none => rw [hp] at h; simp at h
      | some n => simp [hs, hp]
    · exact absurd h hs

lemma decodeSlot_ok_shape (r : Str) (i : Nat) (v : PyVal)
    (h : decodeSlot r i = Except.ok v) : (∃ n, v = PyVal.int n) ∨ v = PyVal.str [] := by
  unfold decodeSlot at h
  by_cases hs : slotOf r i = []
  · simp [hs] at h
    exact Or.inr h.symm
  · simp only [hs, if_neg, ite_false] at h
    cases hp : pyIntHex (slotOf r i) with
    | none => rw [hp] at h; exact Except.noConfusion h
    | some n =>
      rw [hp] at h
      refine Or.inl ⟨n, ?_⟩
      cases h
      rfl

lemma idxList_length (i n : Nat) : (idxList i n).length = n := by
  induction n generalizing i with
  | zero => rfl
  | succ m ih => simp [idxList, ih]

lemma idxList_getElem? (n : Nat) :
    ∀ i k, k < n → (idxList i n)[k]? = some (i + k) := by
  induction n with
  | zero => intro i k h; omega
  | succ m ih =>
    intro i k h
    cases k with
    | zero => simp [idxList]
    | succ k =>
      simp only [idxList, List.getElem?_cons_succ]
      rw [ih (i + 1) k (by omega)]
      congr 1
      omega

lemma decodeFrom_zero (r : Str) (i : Nat) : decodeFrom r i 0 = Except.ok [] := rfl

lemma decodeFrom_succ (r : Str) (i m : Nat) :
    decodeFrom r i (m + 1) =
      match decodeSlot r i with
      | Except.error e => Except.error e
      | Except.ok v =>
        match decodeFrom r (i + 1) m with
        | Except.error e => Except.error e
        | Except.ok vs => Except.ok (v :: vs) := rfl

lemma decodeFrom_eq_ok (r : Str) (n : Nat) :
    ∀ i, (∀ j, i ≤ j → j < i + n → decodeSlot r j = Except.ok (decodeSlotD r j)) →
      decodeFrom r i n = Except.ok ((idxList i n).map (decodeSlotD r)) := by
  induction n with
  | zero => intro i _; rfl
  | succ m ih =>
    intro i h
    have h0 := h i (Nat.le_refl i) (by omega)
    have hrec := ih (i + 1) (fun j h1 h2 => h j (by omega) (by omega))
    rw [decodeFrom_succ, h0, hrec]
    simp [idxList]

lemma decodeFrom_flatData (r : Str) (n : Nat) :
    ∀ i vs, decodeFrom r i n = Except.ok vs → flatData vs := by
  induction n with
  | zero =>
    intro i vs h
    cases h
    intro v hv
    simp at hv
  | succ m ih =>
    intro i vs h
    rw [decodeFrom_succ] at h
    cases hslot : decodeSlot r i with
    | error e => rw [hslot] at h; exact Except.noConfusion h
    | ok v =>
      rw [hslot] at h
      cases hrec : decodeFrom r (i + 1) m with
      | error e => rw [hrec] at h; exact Except.noConfusion h
      | ok vs' =>
        rw [hrec] at h
        cases h
        intro w hw
        rcases List.mem_cons.mp hw with rfl | hw'
        · exact decodeSlot_ok_shape r i w hslot
        · exact ih (i + 1) vs' hrec w hw'

end PLC

namespace PLC

/-! ## Claim theorems -/

/-- C1 (code bug witness): with a failing first receive, `read` and
`write` return the exception wrapper (`[[e]]` / `e`) even when the
retried second receive succeeds with a well-formed `"0000"`-status
response — the successful retry's data is discarded, because the
`retry_cntr > 0` guard raises after the retry unconditionally.  When both
receives fail the calls likewise return the exception wrapper (they do
not hang and no exception escapes). -/
theorem retry_discards_second_recv :
    read ⟨false, Option.none, some "D00000FF03FF00000400000001".data⟩ "D0100".data 1
        = [PyVal.list [PyVal.exc]] ∧
    write ⟨false, Option.none, some "D00000FF03FF00000400000001".data⟩ "D0100".data 5 1
        = PyVal.exc ∧
    read ⟨false, Option.none, Option.none⟩ "D0100".data 1 = [PyVal.list [PyVal.exc]] ∧
    write ⟨false, Option.none, Option.none⟩ "D0100".data 5 1 = PyVal.exc :=
  ⟨rfl, rfl, rfl, rfl⟩

/-- C2 (counterexample): for element count `L = 10`, the count field of
the read request frame (its final four characters, positions 35–39 for
the 5-character device `"D0100"`) is the decimal rendering `"0010"`, not
`L` rendered as four hexadecimal digits (`"000A"`). -/
theorem countField_not_hex :
    pySlice (readFrame "D0100".data 10) 35 39 = "0010".data ∧
    pySlice (readFrame "D0100".data 10) 35 39 ≠ upper (zfill (hexDigits 10) 4) := by
  exact ⟨rfl, by decide⟩

/-- C2 (amended): for every device and element count, the element-count
field placed in the read and write request frames is the *decimal*
rendering `str(L)` zero-padded to 4 digits (uppercased, which leaves
digits unchanged); in the write frame it is followed by the value
rendered in hexadecimal, zero-padded to 4 digits. -/
theorem countField_decimal (D : Str) (L v : Nat) :
    (∃ p, readFrame D L = p ++ upper (zfill (decDigits L) 4)) ∧
    (∃ q, writeFrame D v L
        = q ++ upper (zfill (decDigits L) 4) ++ upper (zfill (hexDigits v) 4)) := by
  constructor
  · refine ⟨upper ("500000FF03FF00".data
      ++ zfill (hexDigits ("001004010000".data ++ D ++ zfill (decDigits L) 4).length) 4
      ++ ("001004010000".data ++ D)), ?_⟩
    simp [readFrame, upper, List.map_append, List.append_assoc]
  · refine ⟨upper ("500000FF03FF00".data
      ++ zfill (hexDigits ("001014010000".data ++ D ++ zfill (decDigits L) 4
          ++ zfill (hexDigits v) 4).length) 4
      ++ ("001014010000".data ++ D)), ?_⟩
    simp [writeFrame, upper, List.map_append, List.append_assoc]

/-- C3: the read request frame for device `"D0100"` and length 2 is
exactly the golden string
`"500000FF03FF000015001004010000D01000002"`. -/
theorem readFrame_golden :
    readFrame "D0100".data 2 = "500000FF03FF000015001004010000D01000002".data := rfl

/-- C4: for every device `D`, element count `L` and value `v ≤ 0xFFFF`,
the write request frame is
`uppercase("500000FF03FF00" + bodyLen + body)` with
`body = "001014010000" + D + zfill(str(L), 4) + zfill(hex(v), 4)` and
`bodyLen` the body length as 4 hex digits. -/
theorem writeFrame_spec (D : Str) (v L : Nat) (h : v ≤ 0xFFFF) :
    writeFrame D v L =
      upper ("500000FF03FF00".data
        ++ zfill (hexDigits ("001014010000".data ++ D ++ zfill (decDigits L) 4
            ++ zfill (hexDigits v) 4).length) 4
        ++ ("001014010000".data ++ D ++ zfill (decDigits L) 4 ++ zfill (hexDigits v) 4)) := by
  simp [writeFrame, List.append_assoc]

/-- C4 witness: the frame equation instantiated at `D = "D0100"`,
`v = 255`, `L = 1`. -/
theorem writeFrame_spec_witness :
    255 ≤ 0xFFFF ∧
    writeFrame "D0100".data 255 1 =
      upper ("500000FF03FF00".data
        ++ zfill (hexDigits ("001014010000".data ++ "D0100".data ++ zfill (decDigits 1) 4
            ++ zfill (hexDigits 255) 4).length) 4
        ++ ("001014010000".data ++ "D0100".data ++ zfill (decDigits 1) 4
            ++ zfill (hexDigits 255) 4)) :=
  ⟨by decide, writeFrame_spec "D0100".data 255 1 (by decide)⟩

/-- C5: whenever the received response's characters at offsets 18..22
differ from `"0000"`, `read` returns the data-error marker `[[None]]`
(never a numeric result) and `write` returns the failure indicator `1`. -/
theorem status_error_outcomes (r : Str) (r2 : Option Str) (D : Str) (v L : Nat)
    (h : pySlice r 18 22 ≠ "0000".data) :
    read ⟨false, some r, r2⟩ D L = [PyVal.list [PyVal.none]] ∧
    write ⟨false, some r, r2⟩ D v L = PyVal.int 1 := by
  constructor
  · simp [read, send, exchangeRecv, decodeResp, h]
  · simp [write, send, exchangeRecv, h]

/-- C5 witness: a concrete response with status `"0059"`. -/
theorem status_error_outcomes_witness :
    pySlice "D00000FF03FF0000040059".data 18 22 ≠ "0000".data ∧
    read ⟨false, some "D00000FF03FF0000040059".data, Option.none⟩ "D0100".data 1
        = [PyVal.list [PyVal.none]] ∧
    write ⟨false, some "D00000FF03FF0000040059".data, Option.none⟩ "D0100".data 5 1
        = PyVal.int 1 :=
  ⟨by decide,
    (status_error_outcomes "D00000FF03FF0000040059".data Option.none "D0100".data 5 1
      (by decide)).1,
    (status_error_outcomes "D00000FF03FF0000040059".data Option.none "D0100".data 5 1
      (by decide)).2⟩

/-- C6: decoding a response with status `"0000"` and payload
`"0001" + "0002"` for a read of length 2 yields `[1, 2]`, one element per
4-character slot, in order. -/
theorem read_roundtrip_golden :
    read ⟨false, some "D00000FF03FF000008000000010002".data, Option.none⟩ "D0100".data 2
        = [PyVal.int 1, PyVal.int 2] := rfl

/-- C7: on a `"0000"`-status response in which the expected 4-character
payload slot `i` is the empty string (and the slots before it parse or
are empty), `read` returns a list of one element per requested slot whose
`i`-th element is the empty-string absent marker — the call does not
raise, and the marker is distinct from the integer 0. -/
theorem empty_slot_absent (r : Str) (r2 : Option Str) (D : Str) (L i : Nat)
    (hstat : pySlice r 18 22 = "0000".data)
    (hi : i < L)
    (hempty : slotOf r i = [])
    (hprev : ∀ j, j < i → (pyIntHex (slotOf r j)).isSome ∨ slotOf r j = []) :
    (read ⟨false, some r, r2⟩ D L).length = L ∧
    (read ⟨false, some r, r2⟩ D L)[i]? = some (PyVal.str []) ∧
    PyVal.str [] ≠ PyVal.int 0 := by
  have hall : ∀ j, 0 ≤ j → j < 0 + L → decodeSlot r j = Except.ok (decodeSlotD r j) := by
    intro j _ hj
    by_cases hji : j < i
    · exact decodeSlot_eq_ok r j (hprev j hji)
    · exact decodeSlot_eq_ok r j (Or.inr (slotOf_empty_mono r (by omega) hempty))
  have hread : read ⟨false, some r, r2⟩ D L = (idxList 0 L).map (decodeSlotD r) := by
    simp [read, send, exchangeRecv, decodeResp, hstat, decodeFrom_eq_ok r L 0 hall]
  refine ⟨?_, ?_, fun hc => PyVal.noConfusion hc⟩
  · rw [hread, List.length_map, idxList_length]
  · rw [hread, List.getElem?_map, idxList_getElem? L 0 i hi]
    simp [decodeSlotD, hempty]

/-- C7 witness: status-ok response `"D00000FF03FF00000400000001"` read
with length 2 — slot 0 is `"0001"`, slot 1 is empty. -/
theorem empty_slot_absent_witness :
    (read ⟨false, some "D00000FF03FF00000400000001".data, Option.none⟩ "D0100".data 2).length
        = 2 ∧
    (read ⟨false, some "D00000FF03FF00000400000001".data, Option.none⟩ "D0100".data 2)[1]?
        = some (PyVal.str []) ∧
    PyVal.str [] ≠ PyVal.int 0 :=
  empty_slot_absent "D00000FF03FF00000400000001".data Option.none "D0100".data 2 1
    (by decide) (by decide) (by decide) (by decide)

/-- C8 (counterexample): closing a fresh connection twice (no OS error)
returns 0 from the *second* call as well — not the failure status 1 the
claim demands — because CPython's `socket.close()` is a no-op on an
already-closed socket and raises no `socket.error`. -/
theorem close_second_not_one :
    ¬ (close (close initConn false).fst false).snd = 1 := by decide

/-- C8 (amended): calling `close` twice never crashes and never corrupts
state: the first call returns 0 when the OS-level close succeeds and 1
when it reports an error, the second call always returns 0 (the
underlying close of an already-closed socket is a no-op), and after the
two calls the socket is closed. -/
theorem close_twice_returns (e1 e2 : Bool) :
    (close initConn e1).snd = (if e1 then 1 else 0) ∧
    (close (close initConn e1).fst e2).snd = 0 ∧
    ((close (close initConn e1).fst e2).fst).sockClosed = true := by
  cases e1 <;> cases e2 <;> exact ⟨rfl, rfl, rfl⟩

/-- C9: every `read` result is one of three pairwise-distinguishable
shapes — the data-error marker `[[None]]`, the transport/decode failure
marker `[[exception]]`, or a flat list of integers and empty-string
markers — and the two error markers are neither flat data nor equal to
each other. -/
theorem read_outcomes_distinguishable (env : Env) (D : Str) (L : Nat) :
    (read env D L = [PyVal.list [PyVal.none]] ∨
     read env D L = [PyVal.list [PyVal.exc]] ∨
     flatData (read env D L)) ∧
    ¬ flatData [PyVal.list [PyVal.none]] ∧
    ¬ flatData [PyVal.list [PyVal.exc]] ∧
    ([PyVal.list [PyVal.none]] : List PyVal) ≠ [PyVal.list [PyVal.exc]] := by
  refine ⟨?_, ?_, ?_, ?_⟩
  · obtain ⟨sf, r1, r2⟩ := env
    cases sf with
    | true => exact Or.inr (Or.inl rfl)
    | false =>
      cases r1 with
      | none => exact Or.inr (Or.inl rfl)
      | some r =>
        by_cases hstat : pySlice r 18 22 = "0000".data
        · cases hdec : decodeFrom r 0 L with
          | error e =>
            refine Or.inr (Or.inl ?_)
            simp [read, send, exchangeRecv, decodeResp, hstat, hdec]
          | ok vs =>
            refine Or.inr (Or.inr ?_)
            have hr : read ⟨false, some r, r2⟩ D L = vs := by
              simp [read, send, exchangeRecv, decodeResp, hstat, hdec]
            rw [hr]
            exact decodeFrom_flatData r L 0 vs hdec
        · refine Or.inl ?_
          simp [read, send, exchangeRecv, decodeResp, hstat]
  · intro h
    rcases h (PyVal.list [PyVal.none]) (by simp) with ⟨n, hn⟩ | hn <;>
      exact PyVal.noConfusion hn
  · intro h
    rcases h (PyVal.list [PyVal.exc]) (by simp) with ⟨n, hn⟩ | hn <;>
      exact PyVal.noConfusion hn
  · intro h
    simp at h

/-- C10: the transport wrappers are total at their boundary: `send`
returns only 0 or 1 whatever the socket does, and `recv` always returns a
(code, data) pair — `(0, data)` on success and `(1, [])` (the empty
value) on failure — never propagating an exception. -/
theorem send_recv_total (b : Bool) (cmd : Str) (s : Str) :
    (send b cmd = 0 ∨ send b cmd = 1) ∧
    recv (some s) = (0, PyVal.str s) ∧
    recv Option.none = (1, PyVal.list []) := by
  refine ⟨?_, rfl, rfl⟩
  cases b
  · exact Or.inl rfl
  · exact Or.inr rfl

end PLC
